import Mathlib

/-!
Shallow embedding of the airspace-copilot ingestion-and-anomaly pipeline.

The Python sources embedded here are:
  * `src/agents/anomaly_detector.py`   (class `AnomalyDetector`)
  * `src/mcp_server/data_store.py`     (class `DataStore`)
  * `src/mcp_server/tools.py`          (class `MCPTools`)
  * `src/n8n_workflows/opensky_fetcher.py` (class `OpenSkyFetcher`)

Modelling conventions:
  * Python numeric field values are modelled as `ℚ` (the code only compares,
    subtracts and takes absolute values of them).
  * An optional dict entry (`flight.get(k)`) is an `Option` field; `none`
    plays the role of a missing key / `None`.
  * Python truthiness of optional values is made explicit (`truthyQ`,
    `truthyS`, `truthyB`): `None`, `0`, `""` and `False` are falsy.
  * The detector's `previous_states` dict is an association list with
    Python's insert-or-replace update semantics.
  * Python exceptions (`IndexError` on `state[i]`, `AttributeError` on
    `.strip()` of a non-string) are modelled with `Except PyErr`.
  * File-system timestamps (`os.path.getmtime` ordering, ISO-8601 strings)
    are modelled as integers; a store directory is a list already held in
    descending write-recency order, the order in which the code scans it.
-/

/-! ### Flight records and anomalies (`anomaly_detector.py`) -/

/-- A flight dict as built by `_parse_flights` / consumed by
`AnomalyDetector._check_flight`.  Every field is optional, mirroring
`flight.get(...)` access. -/
structure Flight where
  icao24 : Option String
  callsign : Option String
  origin_country : Option String
  longitude : Option ℚ
  latitude : Option ℚ
  altitude : Option ℚ
  on_ground : Option Bool
  velocity : Option ℚ
  heading : Option ℚ
  vertical_rate : Option ℚ
deriving DecidableEq

/-- An anomaly dict appended by `_check_flight`. -/
structure Anomaly where
  flight : Flight
  anomaly_type : String
  severity : String
  description : String
deriving DecidableEq

instance : Inhabited Flight :=
  ⟨⟨none, none, none, none, none, none, none, none, none, none⟩⟩

instance : Inhabited Anomaly := ⟨⟨default, "", "", ""⟩⟩

/-- `AnomalyDetector.THRESHOLDS["max_altitude_meters"]`. -/
def max_altitude_meters : ℚ := 15000

/-- `AnomalyDetector.THRESHOLDS["min_velocity_kmh"]`. -/
def min_velocity_kmh : ℚ := 100

/-- `AnomalyDetector.THRESHOLDS["max_velocity_kmh"]`. -/
def max_velocity_kmh : ℚ := 1000

/-- `AnomalyDetector.THRESHOLDS["min_altitude_high_speed"]`. -/
def min_altitude_high_speed : ℚ := 3000

/-- `AnomalyDetector.THRESHOLDS["high_speed_threshold"]`. -/
def high_speed_threshold : ℚ := 600

/-- `AnomalyDetector.THRESHOLDS["max_vertical_rate"]`. -/
def max_vertical_rate : ℚ := 20

/-- Python truthiness of an optional number: `None` and `0` are falsy. -/
def truthyQ : Option ℚ → Bool
  | none => false
  | some q => decide (q ≠ 0)

/-- Python truthiness of an optional string: `None` and `""` are falsy. -/
def truthyS : Option String → Bool
  | none => false
  | some s => decide (s ≠ "")

/-- Python truthiness of an optional boolean: `None` and `False` are falsy. -/
def truthyB : Option Bool → Bool
  | none => false
  | some b => b

/-- Python `a or b` on optional strings (`flight.get("callsign") or
flight.get("icao24")`). -/
def pyOr (a b : Option String) : Option String :=
  if truthyS a then a else b

/-- How an optional string renders inside a Python f-string. -/
def showOptS : Option String → String
  | some s => s
  | none => "None"

/-- Numeric rendering inside a Python f-string (abstracted to `toString`). -/
def qstr (q : ℚ) : String := toString q

/-- `previous_states`: a Python dict from the tracking key to the last
stored flight dict, as an insertion-ordered association list. -/
def PrevMap : Type := List (String × Flight)

instance : DecidableEq PrevMap := inferInstanceAs (DecidableEq (List (String × Flight)))

/-- Python dict lookup (`d[k]` / `k in d`). -/
def dictGet : List (String × Flight) → String → Option Flight
  | [], _ => none
  | (k', v') :: rest, k => if k' = k then some v' else dictGet rest k

/-- Python dict update `d[k] = v`: replace in place, or append a new key. -/
def dictSet : List (String × Flight) → String → Flight → List (String × Flight)
  | [], k, v => [(k, v)]
  | (k', v') :: rest, k, v =>
    if k' = k then (k, v) :: rest else (k', v') :: dictSet rest k v

/-- Check 1 of `_check_flight`: `if altitude and velocity:` then
`altitude > 8000 and velocity < THRESHOLDS["min_velocity_kmh"]`. -/
def check_high_altitude_low_speed (f : Flight) (cs : Option String) : List Anomaly :=
  match f.altitude, f.velocity with
  | some alt, some vel =>
    if alt ≠ 0 ∧ vel ≠ 0 ∧ alt > 8000 ∧ vel < min_velocity_kmh then
      [⟨f, "high_altitude_low_speed", "medium",
        "Flight " ++ showOptS cs ++ " at " ++ qstr alt ++ "m with only " ++ qstr vel ++ " km/h"⟩]
    else []
  | _, _ => []

/-- Check 2 of `_check_flight`: `if altitude and altitude > THRESHOLDS["max_altitude_meters"]`. -/
def check_excessive_altitude (f : Flight) (cs : Option String) : List Anomaly :=
  match f.altitude with
  | some alt =>
    if alt ≠ 0 ∧ alt > max_altitude_meters then
      [⟨f, "excessive_altitude", "high",
        "Flight " ++ showOptS cs ++ " at unusual altitude: " ++ qstr alt ++ "m"⟩]
    else []
  | none => []

/-- Check 3 of `_check_flight`: `if altitude and velocity:` then
`altitude < THRESHOLDS["min_altitude_high_speed"] and velocity > THRESHOLDS["high_speed_threshold"]`. -/
def check_low_altitude_high_speed (f : Flight) (cs : Option String) : List Anomaly :=
  match f.altitude, f.velocity with
  | some alt, some vel =>
    if alt ≠ 0 ∧ vel ≠ 0 ∧ alt < min_altitude_high_speed ∧ vel > high_speed_threshold then
      [⟨f, "low_altitude_high_speed", "high",
        "Flight " ++ showOptS cs ++ " at " ++ qstr vel ++ " km/h at only " ++ qstr alt ++ "m altitude"⟩]
    else []
  | _, _ => []

/-- Check 4 of `_check_flight`: `if vertical_rate and abs(vertical_rate) > THRESHOLDS["max_vertical_rate"]`. -/
def check_rapid_vertical_movement (f : Flight) (cs : Option String) : List Anomaly :=
  match f.vertical_rate with
  | some vr =>
    if vr ≠ 0 ∧ |vr| > max_vertical_rate then
      [⟨f, "rapid_vertical_movement", "medium",
        "Flight " ++ showOptS cs ++ " " ++ (if vr > 0 then "climbing" else "descending") ++
          " rapidly at " ++ qstr |vr| ++ " m/s"⟩]
    else []
  | none => []

/-- Check 5 of `_check_flight`: `if velocity:` then `velocity > THRESHOLDS["max_velocity_kmh"]`. -/
def check_excessive_speed (f : Flight) (cs : Option String) : List Anomaly :=
  match f.velocity with
  | some vel =>
    if vel ≠ 0 ∧ vel > max_velocity_kmh then
      [⟨f, "excessive_speed", "medium",
        "Flight " ++ showOptS cs ++ " traveling at " ++ qstr vel ++ " km/h (unusually fast)"⟩]
    else []
  | none => []

/-- The body of check 6 that reads `previous_states[callsign]` (before the
update) and may emit `stationary_in_air`. -/
def check_stationary_in_air (prev : List (String × Flight)) (f : Flight) (k : String) :
    List Anomaly :=
  match dictGet prev k with
  | some pf =>
    match pf.latitude, pf.longitude, f.latitude, f.longitude with
    | some plat, some plon, some clat, some clon =>
      if plat ≠ 0 ∧ plon ≠ 0 ∧ clat ≠ 0 ∧ clon ≠ 0 ∧
          |clat - plat| < 1 / 100 ∧ |clon - plon| < 1 / 100 ∧ truthyB f.on_ground = false then
        [⟨f, "stationary_in_air", "high", "Flight " ++ k ++ " appears stationary in air"⟩]
      else []
    | _, _, _, _ => []
  | none => []

/-- Check 6 of `_check_flight`, including the history-cursor update:
`if callsign and velocity is not None and velocity < 50:` guards both the
stationary check and `self.previous_states[callsign] = flight`. -/
def check_six_and_update (prev : List (String × Flight)) (f : Flight) :
    List (String × Flight) × List Anomaly :=
  match pyOr f.callsign f.icao24, f.velocity with
  | some k, some vel =>
    if k ≠ "" ∧ vel < 50 then
      (dictSet prev k f, check_stationary_in_air prev f k)
    else (prev, [])
  | _, _ => (prev, [])

/-- `AnomalyDetector._check_flight`: returns the updated `previous_states`
together with the anomalies appended for this flight, in source order. -/
def check_flight (prev : List (String × Flight)) (f : Flight) :
    List (String × Flight) × List Anomaly :=
  if truthyB f.on_ground then (prev, [])
  else
    let cs := pyOr f.callsign f.icao24
    let a1 := check_high_altitude_low_speed f cs
    let a2 := check_excessive_altitude f cs
    let a3 := check_low_altitude_high_speed f cs
    let a4 := check_rapid_vertical_movement f cs
    let a5 := check_excessive_speed f cs
    let s6 := check_six_and_update prev f
    (s6.1, a1 ++ a2 ++ a3 ++ a4 ++ a5 ++ s6.2)

/-- `AnomalyDetector.detect_anomalies`: folds `_check_flight` over the batch,
threading `previous_states` and concatenating per-flight anomaly lists. -/
def detect_anomalies : List (String × Flight) → List Flight →
    List (String × Flight) × List Anomaly
  | prev, [] => (prev, [])
  | prev, f :: fs =>
    let r1 := check_flight prev f
    let r2 := detect_anomalies r1.1 fs
    (r2.1, r1.2 ++ r2.2)

/-! ### Persisted snapshots and flight lookup (`data_store.py`, `tools.py`) -/

/-- A JSON value inside a persisted OpenSky `states` row. -/
inductive JVal where
  | str (s : String)
  | num (q : ℚ)
  | bool (b : Bool)
  | null
deriving DecidableEq

/-- Python truthiness of a row entry. -/
def JVal.truthy : JVal → Bool
  | .str s => decide (s ≠ "")
  | .num q => decide (q ≠ 0)
  | .bool b => b
  | .null => false

/-- Python `==` between a row entry and a query string: equal strings only,
any other type compares unequal without error. -/
def JVal.eqStr : JVal → String → Bool
  | .str t, s => t = s
  | _, _ => false

/-- The Python exceptions the read path can raise. -/
inductive PyErr where
  | indexError
  | attrError
deriving DecidableEq

/-- Python `str.strip()`: drop leading and trailing whitespace (modelled on
the character list underlying the string, so that it evaluates by kernel
reduction). -/
def pystrip (s : String) : String :=
  ⟨((s.data.dropWhile Char.isWhitespace).reverse.dropWhile Char.isWhitespace).reverse⟩

/-- `state[i]`: list indexing, raising `IndexError` when out of bounds. -/
def idx (row : List JVal) (i : Nat) : Except PyErr JVal :=
  match row.get? i with
  | some v => .ok v
  | none => .error .indexError

/-- `v.strip()`: strips a string, raises `AttributeError` on any other type. -/
def jstrip : JVal → Except PyErr String
  | .str s => .ok (pystrip s)
  | _ => .error .attrError

/-- The persisted `{"region": ..., "timestamp": ..., "data": ...}` snapshot
object.  `data = none` models a snapshot without a `"data"` key, and
`states = none` inside `RawData` one whose data has no `"states"` key. -/
structure RawData where
  states : Option (List (List JVal))
deriving DecidableEq

structure Snapshot where
  region : String
  timestamp : Int
  data : Option RawData
deriving DecidableEq

/-- The flight dict returned by `get_flight_by_callsign` /
`get_flight_by_icao24`, fields in source order. -/
structure FlightOut where
  callsign : Option String
  icao24 : JVal
  origin_country : JVal
  longitude : JVal
  latitude : JVal
  altitude : JVal
  velocity : JVal
  heading : JVal
  vertical_rate : JVal
  on_ground : JVal
  timestamp : Int
  region : String
deriving DecidableEq

/-- The dict literal both lookup methods build from a matching row; entries
are evaluated in Python source order, so the first out-of-range index or
non-string `.strip()` target raises. -/
def buildFlightOut (row : List JVal) (ts : Int) (rg : String) : Except PyErr FlightOut := do
  let v1 ← idx row 1
  let cs ← if v1.truthy then do
      let s ← jstrip v1
      pure (some s)
    else pure none
  let i0 ← idx row 0
  let oc ← idx row 2
  let lon ← idx row 5
  let lat ← idx row 6
  let alt ← idx row 7
  let vel ← idx row 9
  let hdg ← idx row 10
  let vr ← idx row 11
  let og ← idx row 8
  pure ⟨cs, i0, oc, lon, lat, alt, vel, hdg, vr, og, ts, rg⟩

/-- The row guard of `get_flight_by_callsign`:
`len(state) > 1 and state[1] and state[1].strip() == callsign.strip()`. -/
def rowMatchesCallsign (row : List JVal) (query : String) : Except PyErr Bool :=
  match row.get? 1 with
  | some v =>
    if v.truthy then do
      let s ← jstrip v
      pure (s = pystrip query)
    else pure false
  | none => pure false

/-- The row guard of `get_flight_by_icao24`:
`len(state) > 0 and state[0] == icao24`. -/
def rowMatchesIcao (row : List JVal) (query : String) : Bool :=
  match row.get? 0 with
  | some v => v.eqStr query
  | none => false

/-- The inner `for state in snapshot["data"]["states"]` loop of
`get_flight_by_callsign`. -/
def searchRowsCallsign (ts : Int) (rg : String) (query : String) :
    List (List JVal) → Except PyErr (Option FlightOut)
  | [] => pure none
  | row :: rows => do
    if ← rowMatchesCallsign row query then do
      let f ← buildFlightOut row ts rg
      pure (some f)
    else searchRowsCallsign ts rg query rows

/-- The inner row loop of `get_flight_by_icao24`. -/
def searchRowsIcao (ts : Int) (rg : String) (query : String) :
    List (List JVal) → Except PyErr (Option FlightOut)
  | [] => pure none
  | row :: rows => do
    if rowMatchesIcao row query then do
      let f ← buildFlightOut row ts rg
      pure (some f)
    else searchRowsIcao ts rg query rows

/-- The rows of one snapshot as the scan sees them: skipped entirely when the
`"data"` or `"states"` key is missing. -/
def snapRows (s : Snapshot) : List (List JVal) :=
  match s.data with
  | some raw => raw.states.getD []
  | none => []

/-- The outer snapshot loop of `get_flight_by_callsign`, over snapshots
already ordered by descending write recency. -/
def searchSnapsCallsign (query : String) :
    List Snapshot → Except PyErr (Option FlightOut)
  | [] => pure none
  | snap :: rest => do
    match ← searchRowsCallsign snap.timestamp snap.region query (snapRows snap) with
    | some f => pure (some f)
    | none => searchSnapsCallsign query rest

/-- The outer snapshot loop of `get_flight_by_icao24`. -/
def searchSnapsIcao (query : String) :
    List Snapshot → Except PyErr (Option FlightOut)
  | [] => pure none
  | snap :: rest => do
    match ← searchRowsIcao snap.timestamp snap.region query (snapRows snap) with
    | some f => pure (some f)
    | none => searchSnapsIcao query rest

/-- `DataStore.get_flight_by_callsign`: scans the 10 most recently written
snapshots (the store list is held newest first). -/
def get_flight_by_callsign (store : List Snapshot) (callsign : String) :
    Except PyErr (Option FlightOut) :=
  searchSnapsCallsign callsign (store.take 10)

/-- `DataStore.get_flight_by_icao24`. -/
def get_flight_by_icao24 (store : List Snapshot) (icao24 : String) :
    Except PyErr (Option FlightOut) :=
  searchSnapsIcao icao24 (store.take 10)

/-- The structured result of `MCPTools.get_by_callsign`. -/
structure GetResult where
  success : Bool
  flight : Option FlightOut
  error : Option String
deriving DecidableEq

/-- `MCPTools.get_by_callsign`: callsign pass over the 10 most recent
snapshots first; only when it finds nothing, a second icao24 pass. -/
def get_by_callsign (store : List Snapshot) (callsign : String) :
    Except PyErr GetResult := do
  match ← get_flight_by_callsign store callsign with
  | some fl => pure ⟨true, some fl, none⟩
  | none =>
    match ← get_flight_by_icao24 store callsign with
    | some fl => pure ⟨true, some fl, none⟩
    | none => pure ⟨false, none, some ("Flight not found: " ++ callsign)⟩

/-! ### Alert storage and the active-alert window (`data_store.py`) -/

/-- A persisted alert file, as written by `DataStore.save_alert` from the
payload assembled in `OpenSkyFetcher.fetch_region`. -/
structure StoredAlert where
  alert_id : String
  timestamp : Int
  region : String
  callsign : Option String
  icao24 : Option String
  anomaly_type : String
  severity : String
  description : String
  flight_data : Flight
deriving DecidableEq

/-- Descending-timestamp comparison used by
`alerts.sort(key=lambda x: x["timestamp"], reverse=True)`. -/
def alertDescTs (a b : StoredAlert) : Prop := b.timestamp ≤ a.timestamp

instance : DecidableRel alertDescTs :=
  fun a b => inferInstanceAs (Decidable (b.timestamp ≤ a.timestamp))

instance : IsTotal StoredAlert alertDescTs := ⟨fun a b => le_total b.timestamp a.timestamp⟩

instance : IsTrans StoredAlert alertDescTs := ⟨fun _ _ _ h1 h2 => le_trans h2 h1⟩

/-- `cutoff_time = datetime.now() - timedelta(hours=max_age_hours)`,
with timestamps in seconds. -/
def alert_cutoff (now maxAgeHours : Int) : Int := now - maxAgeHours * 3600

/-- `DataStore.get_active_alerts`: keep alerts with
`alert_time >= cutoff_time`, then a stable descending sort by timestamp
(Python's stable `list.sort` with `reverse=True` is insertion sort here). -/
def get_active_alerts (now maxAgeHours : Int) (alerts : List StoredAlert) :
    List StoredAlert :=
  List.insertionSort alertDescTs
    (alerts.filter fun a => decide (alert_cutoff now maxAgeHours ≤ a.timestamp))

/-! ### One ingestion cycle (`opensky_fetcher.py`) -/

/-- The dict returned by `OpenSkyFetcher.fetch_region`; keys that a given
return path does not populate are `none`. -/
structure FetchResult where
  success : Bool
  error : Option String
  status_code : Option Nat
  region : Option String
  timestamp : Option Int
  total_flights : Option Nat
  anomalies : Option Nat
deriving DecidableEq

/-- What the provider interaction can come back with: an HTTP response with
a status code and JSON body, `requests.exceptions.Timeout`, or any other
`requests.exceptions.RequestException`. -/
inductive FetchOutcome where
  | response (status : Nat) (body : RawData)
  | timeout
  | requestFailed (msg : String)
deriving DecidableEq

/-- Everything one `OpenSkyFetcher` mutates: the snapshot store, the alert
store, and the detector's `previous_states` cursor. -/
structure SystemState where
  snapshots : List Snapshot
  alerts : List StoredAlert
  previous_states : List (String × Flight)
deriving DecidableEq

/-- `DataStore.save_snapshot`: writes a new snapshot file; as the newest
write it heads the descending-recency store order. -/
def save_snapshot (st : SystemState) (region : String) (body : RawData) (now : Int) :
    SystemState :=
  { st with snapshots := ⟨region, now, some body⟩ :: st.snapshots }

/-- `DataStore.save_alert` on the payload built in the fetch loop. -/
def save_alert (st : SystemState) (al : StoredAlert) : SystemState :=
  { st with alerts := al :: st.alerts }

def jvalS : JVal → Option String
  | .str s => some s
  | _ => none

def jvalQ : JVal → Option ℚ
  | .num q => some q
  | _ => none

def jvalB : JVal → Option Bool
  | .bool b => some b
  | _ => none

/-- One row of `OpenSkyFetcher._parse_flights` (rows reaching this point
have at least 12 entries; entries of unexpected JSON type are absent). -/
def rowToFlight (row : List JVal) : Flight :=
  ⟨jvalS (row.getD 0 .null),
    (if (row.getD 1 .null).truthy then (jvalS (row.getD 1 .null)).map pystrip else none),
    jvalS (row.getD 2 .null), jvalQ (row.getD 5 .null), jvalQ (row.getD 6 .null),
    jvalQ (row.getD 7 .null), jvalB (row.getD 8 .null), jvalQ (row.getD 9 .null),
    jvalQ (row.getD 10 .null), jvalQ (row.getD 11 .null)⟩

/-- `OpenSkyFetcher._parse_flights`: guarded by
`"states" in opensky_data and opensky_data["states"]` (a truthiness test, so
an empty list is skipped the same way), keeping rows with at least 12
fields. -/
def parse_flights (data : RawData) : List Flight :=
  match data.states with
  | some rows =>
    if rows = [] then [] else (rows.filter fun r => decide (12 ≤ r.length)).map rowToFlight
  | none => []

/-- The `alert_data` dict assembled per anomaly in `fetch_region`, plus the
`alert_id`/`timestamp` fields added by `save_alert`. -/
def alert_of_anomaly (region : String) (now : Int) (a : Anomaly) : StoredAlert :=
  ⟨"alert_" ++ toString now, now, region, a.flight.callsign, a.flight.icao24,
    a.anomaly_type, a.severity, a.description, a.flight⟩

/-- `OpenSkyFetcher.fetch_region`: the whole body is wrapped in
`try/except`, so every outcome returns a structured result.  HTTP 429
returns before anything is persisted; `Timeout` and other
`RequestException`s are raised by `requests.get` / `raise_for_status`
before the first store write. -/
def fetch_region (st : SystemState) (region : String) (outcome : FetchOutcome) (now : Int) :
    SystemState × FetchResult :=
  match outcome with
  | .timeout => (st, ⟨false, some "Request timeout", none, none, none, none, none⟩)
  | .requestFailed msg => (st, ⟨false, some msg, none, none, none, none, none⟩)
  | .response status body =>
    if status = 429 then
      (st, ⟨false, some "Rate limited", some 429, none, none, none, none⟩)
    else if 400 ≤ status then
      (st, ⟨false, some ("HTTP error " ++ toString status), none, none, none, none, none⟩)
    else
      let st1 := save_snapshot st region body now
      let flights := parse_flights body
      let det := detect_anomalies st1.previous_states flights
      let st2 := det.2.foldl (fun acc a => save_alert acc (alert_of_anomaly region now a))
        { st1 with previous_states := det.1 }
      (st2, ⟨true, none, none, some region, some now, some flights.length, some det.2.length⟩)

/-! ### Specification-side view of the flight lookup

These definitions follow the words of the (amended) lookup contract rather
than the code shape: flatten the 10 most recently written snapshots into a
candidate row sequence in descending recency order, then make one
first-match pass by callsign and, only if it yields nothing, one by
identifier.  They are compared with the source embedding above. -/

/-- Well-formedness of a persisted row for the lookup path: at least 12
fields, and the callsign position holds a string or JSON null. -/
def pos1OK : Option JVal → Prop
  | some (.str _) => True
  | some .null => True
  | _ => False

instance instDecPos1OK : ∀ o, Decidable (pos1OK o)
  | some (.str _) => .isTrue trivial
  | some .null => .isTrue trivial
  | some (.num _) => .isFalse fun h => h
  | some (.bool _) => .isFalse fun h => h
  | none => .isFalse fun h => h

def rowWF (row : List JVal) : Prop := 12 ≤ row.length ∧ pos1OK (row.get? 1)

instance : DecidablePred rowWF := fun row =>
  inferInstanceAs (Decidable (12 ≤ row.length ∧ pos1OK (row.get? 1)))

def storeWF (store : List Snapshot) : Prop :=
  ∀ s ∈ store, ∀ row ∈ snapRows s, rowWF row

instance : DecidablePred storeWF := fun store =>
  inferInstanceAs (Decidable (∀ s ∈ store, ∀ row ∈ snapRows s, rowWF row))

/-- Pure version of the callsign row guard: a non-blank string at position 1
whose trimmed value equals the trimmed query. -/
def pureMatchCallsign (row : List JVal) (q : String) : Bool :=
  match row.get? 1 with
  | some (.str s) => decide (s ≠ "") && decide (pystrip s = pystrip q)
  | _ => false

/-- Pure version of the result record a matching row yields. -/
def pureBuild (row : List JVal) (ts : Int) (rg : String) : FlightOut :=
  ⟨(if (row.getD 1 .null).truthy then (jvalS (row.getD 1 .null)).map pystrip else none),
    row.getD 0 .null, row.getD 2 .null, row.getD 5 .null, row.getD 6 .null,
    row.getD 7 .null, row.getD 9 .null, row.getD 10 .null, row.getD 11 .null,
    row.getD 8 .null, ts, rg⟩

/-- The candidate rows of the scan: all rows of the 10 most recently written
snapshots, tagged with their snapshot, in descending snapshot recency and
row order. -/
def candidateRows (store : List Snapshot) : List (Snapshot × List JVal) :=
  (store.take 10).flatMap fun s => (snapRows s).map fun row => (s, row)

/-- The amended lookup contract: first callsign match over the candidate
rows wins; otherwise the first identifier match; otherwise nothing. -/
def spec_find_flight (store : List Snapshot) (q : String) : Option FlightOut :=
  match (candidateRows store).find? fun c => pureMatchCallsign c.2 q with
  | some c => some (pureBuild c.2 c.1.timestamp c.1.region)
  | none =>
    match (candidateRows store).find? fun c => rowMatchesIcao c.2 q with
    | some c => some (pureBuild c.2 c.1.timestamp c.1.region)
    | none => none

/-! ### Concrete inputs used by counterexamples and witnesses -/

/-- Counterexample flight for the history-cursor claim: airborne, slow, with
both a callsign and a transponder identifier. -/
def cexCursorFlight : Flight :=
  ⟨some "y", some "X", none, none, none, none, some false, some 10, none, none⟩

/-- The spec's scenario flight `{identifier:"abc123", callsign:"TEST123",
altitude:12000, velocity:80, on_ground:false}`. -/
def scenarioFlight : Flight :=
  ⟨some "abc123", some "TEST123", none, none, none, some 12000, some false, some 80, none, none⟩

/-- Counterexample flight for the low-altitude rule: altitude present and
equal to 0, velocity 700, airborne. -/
def zeroAltFlight : Flight :=
  ⟨some "ghi789", some "FAST123", none, none, none, some 0, some false, some 700, none, none⟩

/-- A newer snapshot whose only row matches the query `"q"` by identifier
(position 0) but not by callsign (position 1). -/
def snapNewer : Snapshot :=
  ⟨"r1", 2, some ⟨some [[.str "q", .str "ZZZ", .str "US", .null, .null, .num 1, .num 2,
    .num 3000, .bool false, .num 400, .num 90, .num 0]]⟩⟩

/-- An older snapshot whose only row matches the query `"q"` by callsign. -/
def snapOlder : Snapshot :=
  ⟨"r2", 1, some ⟨some [[.str "aaa", .str "q", .str "FR", .null, .null, .num 1, .num 2,
    .num 5000, .bool false, .num 500, .num 90, .num 0]]⟩⟩

/-- A snapshot whose only row carries the callsign `"Q"`, matching the query
`"q"` only case-insensitively. -/
def snapUpperCase : Snapshot :=
  ⟨"r3", 3, some ⟨some [[.str "xyz", .str "Q", .str "DE", .null, .null, .num 1, .num 2,
    .num 4000, .bool false, .num 450, .num 90, .num 0]]⟩⟩

/-- The failing store for the malformed-row claim: a persisted snapshot with
one 2-field row whose callsign position equals the query. -/
def shortRowStore : List Snapshot :=
  [⟨"r1", 5, some ⟨some [[.str "aaa111", .str "QUERY"]]⟩⟩]

/-- An alert created 25 hours before the reference time 0. -/
def alert25h : StoredAlert :=
  ⟨"alert_-90000", -90000, "r", none, none, "excessive_altitude", "high", "d", default⟩

/-- An airborne flight far above the excessive-altitude threshold. -/
def excessAltFlight : Flight :=
  ⟨some "a", none, none, none, none, some 16000, some false, none, none, none⟩

/-- An airborne flight with no velocity field at all. -/
def noVelocityFlight : Flight :=
  ⟨some "z", none, none, none, none, none, none, none, none, none⟩

instance {ε α : Type} [DecidableEq ε] [DecidableEq α] : DecidableEq (Except ε α) := fun x y =>
  match x, y with
  | .ok a, .ok b => decidable_of_iff (a = b) (by simp)
  | .ok _, .error _ => .isFalse (by simp)
  | .error _, .ok _ => .isFalse (by simp)
  | .error e, .error e' => decidable_of_iff (e = e') (by simp)

/-! ### Basic lemmas about the embedded dictionaries and monads -/

theorem ok_bind {α β : Type} (a : α) (f : α → Except PyErr β) :
    (Except.ok a >>= f) = f a := rfl

theorem dictGet_dictSet_self (d : List (String × Flight)) (k : String) (v : Flight) :
    dictGet (dictSet d k v) k = some v := by
  induction d with
  | nil => simp [dictSet, dictGet]
  | cons p rest ih =>
    obtain ⟨k', v'⟩ := p
    by_cases h : k' = k
    · simp [dictSet, dictGet, h]
    · simp [dictSet, dictGet, h, ih]

/-! ### C5: on-ground flights are skipped entirely -/

/-- C5: for every flight record with `on_ground = true`, the per-flight
evaluation inside `detect_anomalies` produces no anomalies and returns the
history cursor exactly as it was, whatever the other fields hold; hence a
single-flight batch leaves the engine state unchanged as well. -/
theorem C5_ground_skip (prev : List (String × Flight)) (f : Flight)
    (h : f.on_ground = some true) :
    check_flight prev f = (prev, []) ∧ detect_anomalies prev [f] = (prev, []) := by
  have h1 : check_flight prev f = (prev, []) := by
    simp [check_flight, truthyB, h]
  exact ⟨h1, by simp [detect_anomalies, h1]⟩

/-- Witness for C5 at a flight whose every other field would otherwise fire
several rules. -/
theorem C5_witness :
    check_flight [] ⟨some "g1", some "G1", none, some 1, some 2, some 16000, some true,
      some 2000, none, some 100⟩ = ([], []) ∧
    detect_anomalies [] [⟨some "g1", some "G1", none, some 1, some 2, some 16000, some true,
      some 2000, none, some 100⟩] = ([], []) :=
  C5_ground_skip [] _ rfl

/-! ### C6: the spec's single-flight scenario -/

/-- C6: on a fresh engine, the scenario flight yields exactly one anomaly,
of type `high_altitude_low_speed` with severity `medium`. -/
theorem C6_scenario :
    ((detect_anomalies [] [scenarioFlight]).2.map fun a => (a.anomaly_type, a.severity)) =
      [("high_altitude_low_speed", "medium")] := by decide

/-! ### C9: failure outcomes of one ingestion cycle -/

/-- C9: `fetch_region` is total on every provider outcome; on HTTP 429, on a
timeout, and on any other request failure it returns a structured result
with `success = false` and leaves the entire system state — snapshots,
alerts and the detector cursor — unchanged. -/
theorem C9_failure_paths (st : SystemState) (region : String) (now : Int) (msg : String)
    (body : RawData) :
    ((fetch_region st region .timeout now).1 = st ∧
      (fetch_region st region .timeout now).2.success = false) ∧
    ((fetch_region st region (.requestFailed msg) now).1 = st ∧
      (fetch_region st region (.requestFailed msg) now).2.success = false) ∧
    ((fetch_region st region (.response 429 body) now).1 = st ∧
      (fetch_region st region (.response 429 body) now).2.success = false) :=
  ⟨⟨rfl, rfl⟩, ⟨rfl, rfl⟩, ⟨rfl, rfl⟩⟩

/-! ### C4: a matching short row crashes the lookup -/

/-- C4: on a store holding one snapshot whose single state row has only two
fields, with the callsign position equal to the query, the lookup raises
`IndexError` (while building the result dict) instead of skipping the
malformed row. -/
theorem C4_short_row_raises :
    get_flight_by_callsign shortRowStore "QUERY" = .error .indexError ∧
    get_by_callsign shortRowStore "QUERY" = .error .indexError := by decide

/-! ### Per-check shape lemmas for `_check_flight` -/

theorem mem_check_high_altitude {f : Flight} {cs : Option String} {a : Anomaly}
    (h : a ∈ check_high_altitude_low_speed f cs) :
    a.anomaly_type = "high_altitude_low_speed" ∧ a.severity = "medium" ∧ a.flight = f := by
  unfold check_high_altitude_low_speed at h
  split at h
  · split at h
    · obtain rfl := List.mem_singleton.1 h
      exact ⟨rfl, rfl, rfl⟩
    · exact absurd h (List.not_mem_nil a)
  · exact absurd h (List.not_mem_nil a)

theorem mem_check_excessive_altitude {f : Flight} {cs : Option String} {a : Anomaly}
    (h : a ∈ check_excessive_altitude f cs) :
    a.anomaly_type = "excessive_altitude" ∧ a.severity = "high" ∧ a.flight = f := by
  unfold check_excessive_altitude at h
  split at h
  · split at h
    · obtain rfl := List.mem_singleton.1 h
      exact ⟨rfl, rfl, rfl⟩
    · exact absurd h (List.not_mem_nil a)
  · exact absurd h (List.not_mem_nil a)

theorem mem_check_low_altitude {f : Flight} {cs : Option String} {a : Anomaly}
    (h : a ∈ check_low_altitude_high_speed f cs) :
    a.anomaly_type = "low_altitude_high_speed" ∧ a.severity = "high" ∧ a.flight = f := by
  unfold check_low_altitude_high_speed at h
  split at h
  · split at h
    · obtain rfl := List.mem_singleton.1 h
      exact ⟨rfl, rfl, rfl⟩
    · exact absurd h (List.not_mem_nil a)
  · exact absurd h (List.not_mem_nil a)

theorem mem_check_rapid_vertical {f : Flight} {cs : Option String} {a : Anomaly}
    (h : a ∈ check_rapid_vertical_movement f cs) :
    a.anomaly_type = "rapid_vertical_movement" ∧ a.severity = "medium" ∧ a.flight = f := by
  unfold check_rapid_vertical_movement at h
  split at h
  · split at h
    · obtain rfl := List.mem_singleton.1 h
      exact ⟨rfl, rfl, rfl⟩
    · exact absurd h (List.not_mem_nil a)
  · exact absurd h (List.not_mem_nil a)

theorem mem_check_excessive_speed {f : Flight} {cs : Option String} {a : Anomaly}
    (h : a ∈ check_excessive_speed f cs) :
    a.anomaly_type = "excessive_speed" ∧ a.severity = "medium" ∧ a.flight = f := by
  unfold check_excessive_speed at h
  split at h
  · split at h
    · obtain rfl := List.mem_singleton.1 h
      exact ⟨rfl, rfl, rfl⟩
    · exact absurd h (List.not_mem_nil a)
  · exact absurd h (List.not_mem_nil a)

theorem mem_check_stationary {prev : List (String × Flight)} {f : Flight} {k : String}
    {a : Anomaly} (h : a ∈ check_stationary_in_air prev f k) :
    a.anomaly_type = "stationary_in_air" ∧ a.severity = "high" ∧ a.flight = f := by
  unfold check_stationary_in_air at h
  split at h
  · split at h
    · split at h
      · obtain rfl := List.mem_singleton.1 h
        exact ⟨rfl, rfl, rfl⟩
      · exact absurd h (List.not_mem_nil a)
    · exact absurd h (List.not_mem_nil a)
  · exact absurd h (List.not_mem_nil a)

theorem mem_check_six {prev : List (String × Flight)} {f : Flight} {a : Anomaly}
    (h : a ∈ (check_six_and_update prev f).2) :
    a.anomaly_type = "stationary_in_air" ∧ a.severity = "high" ∧ a.flight = f := by
  unfold check_six_and_update at h
  split at h
  · split at h
    · exact mem_check_stationary h
    · exact absurd h (List.not_mem_nil a)
  · exact absurd h (List.not_mem_nil a)

theorem check_flight_snd (prev : List (String × Flight)) (f : Flight) :
    (check_flight prev f).2 =
      if truthyB f.on_ground then [] else
        check_high_altitude_low_speed f (pyOr f.callsign f.icao24) ++
        check_excessive_altitude f (pyOr f.callsign f.icao24) ++
        check_low_altitude_high_speed f (pyOr f.callsign f.icao24) ++
        check_rapid_vertical_movement f (pyOr f.callsign f.icao24) ++
        check_excessive_speed f (pyOr f.callsign f.icao24) ++
        (check_six_and_update prev f).2 := by
  unfold check_flight
  split <;> rfl

theorem mem_check_flight {prev : List (String × Flight)} {f : Flight} {a : Anomaly}
    (h : a ∈ (check_flight prev f).2) :
    (a.severity = "medium" ∨ a.severity = "high") ∧ a.flight = f := by
  rw [check_flight_snd] at h
  by_cases hog : truthyB f.on_ground
  · rw [if_pos hog] at h
    exact absurd h (List.not_mem_nil a)
  · rw [if_neg hog] at h
    simp only [List.append_assoc, List.mem_append] at h
    rcases h with h | h | h | h | h | h
    · exact ⟨Or.inl (mem_check_high_altitude h).2.1, (mem_check_high_altitude h).2.2⟩
    · exact ⟨Or.inr (mem_check_excessive_altitude h).2.1, (mem_check_excessive_altitude h).2.2⟩
    · exact ⟨Or.inr (mem_check_low_altitude h).2.1, (mem_check_low_altitude h).2.2⟩
    · exact ⟨Or.inl (mem_check_rapid_vertical h).2.1, (mem_check_rapid_vertical h).2.2⟩
    · exact ⟨Or.inl (mem_check_excessive_speed h).2.1, (mem_check_excessive_speed h).2.2⟩
    · exact ⟨Or.inr (mem_check_six h).2.1, (mem_check_six h).2.2⟩

/-! ### C10: every emitted severity is medium or high -/

/-- C10: every anomaly record produced by `detect_anomalies`, from any
cursor state and any batch, has severity `"medium"` or `"high"`; the
`"low"` level is never emitted. -/
theorem C10_severity (prev : List (String × Flight)) (flights : List Flight) (a : Anomaly)
    (h : a ∈ (detect_anomalies prev flights).2) :
    a.severity = "medium" ∨ a.severity = "high" := by
  induction flights generalizing prev with
  | nil => exact absurd h (List.not_mem_nil a)
  | cons f fs ih =>
    simp only [detect_anomalies, List.mem_append] at h
    rcases h with h | h
    · exact (mem_check_flight h).1
    · exact ih _ h

/-- Witness for C10 at a flight that fires the excessive-altitude rule. -/
theorem C10_witness :
    ((detect_anomalies [] [excessAltFlight]).2.headI).severity = "medium" ∨
    ((detect_anomalies [] [excessAltFlight]).2.headI).severity = "high" :=
  C10_severity [] [excessAltFlight] _ (by decide)

/-! ### C1: which cursor entry a slow airborne flight updates -/

/-- C1 counterexample: an airborne flight with velocity 10 < 50 carrying
both a callsign (`"X"`) and an identifier (`"y"`); after evaluation the
cursor entry for the identifier `"y"` is still absent, so the entry for the
flight's identifier was not set to the record. -/
theorem C1_counterexample :
    cexCursorFlight.icao24 = some "y" ∧ cexCursorFlight.on_ground = some false ∧
    cexCursorFlight.velocity = some 10 ∧ ((10 : ℚ) < 50) ∧
    dictGet (check_flight [] cexCursorFlight).1 "y" = none := by decide

/-- C1 amended: for every airborne flight whose velocity is present and
below 50, the cursor entry for the flight's callsign — or its identifier
only when the callsign is blank or missing (the tracking key is
`flight.get("callsign") or flight.get("icao24")`) — is set to the current
record; for every flight whose velocity is absent or at least 50, the
cursor is left unchanged. -/
theorem C1_cursor_update :
    (∀ (prev : List (String × Flight)) (f : Flight) (k : String) (v : ℚ),
      truthyB f.on_ground = false → pyOr f.callsign f.icao24 = some k → k ≠ "" →
      f.velocity = some v → v < 50 →
      dictGet (check_flight prev f).1 k = some f) ∧
    (∀ (prev : List (String × Flight)) (f : Flight),
      (∀ v : ℚ, f.velocity = some v → 50 ≤ v) → (check_flight prev f).1 = prev) := by
  constructor
  · intro prev f k v hog hkey hk hv hlt
    simp only [check_flight, hog, Bool.false_eq_true, if_false]
    simp only [check_six_and_update, hkey, hv]
    rw [if_pos ⟨hk, hlt⟩]
    exact dictGet_dictSet_self prev k f
  · intro prev f hv
    by_cases hog : truthyB f.on_ground
    · simp [check_flight, hog]
    · simp only [check_flight, hog, Bool.false_eq_true, if_false]
      cases hkey : pyOr f.callsign f.icao24 with
      | none => simp [check_six_and_update, hkey]
      | some k =>
        cases hvel : f.velocity with
        | none => simp [check_six_and_update, hkey, hvel]
        | some v =>
          simp only [check_six_and_update, hkey, hvel]
          rw [if_neg]
          rintro ⟨-, hlt⟩
          exact absurd hlt (not_lt.2 (hv v hvel))

/-- Witness for C1: the slow flight updates the entry for its callsign key,
and a flight without a velocity leaves the cursor untouched. -/
theorem C1_witness :
    dictGet (check_flight [] cexCursorFlight).1 "X" = some cexCursorFlight ∧
    (check_flight [] noVelocityFlight).1 = [] :=
  ⟨C1_cursor_update.1 [] cexCursorFlight "X" 10 (by decide) (by decide) (by decide)
      (by decide) (by decide),
    C1_cursor_update.2 [] noVelocityFlight (fun v h => nomatch h)⟩

/-! ### C3: the low-altitude-high-speed rule and zero altitude -/

/-- C3 counterexample: altitude present and equal to 0 with velocity 700
meets the claimed condition (altitude < 3000, velocity > 600), yet the
engine emits no anomaly at all, because Python truthiness treats the zero
altitude like a missing field. -/
theorem C3_counterexample :
    zeroAltFlight.altitude = some 0 ∧ (0 : ℚ) < min_altitude_high_speed ∧
    zeroAltFlight.velocity = some 700 ∧ high_speed_threshold < (700 : ℚ) ∧
    zeroAltFlight.on_ground = some false ∧
    (detect_anomalies [] [zeroAltFlight]).2 = [] := by decide

theorem check_low_altitude_empty {f : Flight} {cs : Option String}
    (h : f.altitude = none ∨ f.velocity = none) :
    check_low_altitude_high_speed f cs = [] := by
  unfold check_low_altitude_high_speed
  rcases ha : f.altitude with _ | alt <;> rcases hv : f.velocity with _ | vel <;> simp_all

/-- C3 amended: for every airborne flight whose altitude is present and
nonzero and below 3000 and whose velocity is present and above 600, the
engine emits a `low_altitude_high_speed` anomaly of severity `high` for
that flight; and whenever the altitude or the velocity field is absent, no
`low_altitude_high_speed` anomaly is emitted (absence is never read as
zero — but a present zero is treated like absence). -/
theorem C3_low_altitude_rule :
    (∀ (prev : List (String × Flight)) (f : Flight) (alt vel : ℚ),
      truthyB f.on_ground = false → f.altitude = some alt → alt ≠ 0 →
      alt < min_altitude_high_speed → f.velocity = some vel → high_speed_threshold < vel →
      ∃ a ∈ (check_flight prev f).2,
        a.anomaly_type = "low_altitude_high_speed" ∧ a.severity = "high" ∧ a.flight = f) ∧
    (∀ (prev : List (String × Flight)) (f : Flight) (a : Anomaly),
      f.altitude = none ∨ f.velocity = none → a ∈ (check_flight prev f).2 →
      a.anomaly_type ≠ "low_altitude_high_speed") := by
  constructor
  · intro prev f alt vel hog ha hane hlt hv hgt
    have hvne : vel ≠ 0 := by
      intro h
      rw [h] at hgt
      exact absurd hgt (by norm_num [high_speed_threshold])
    have h3 : ∃ a ∈ check_low_altitude_high_speed f (pyOr f.callsign f.icao24),
        a.anomaly_type = "low_altitude_high_speed" ∧ a.severity = "high" ∧ a.flight = f := by
      unfold check_low_altitude_high_speed
      simp only [ha, hv]
      rw [if_pos ⟨hane, hvne, hlt, hgt⟩]
      exact ⟨_, List.mem_singleton_self _, rfl, rfl, rfl⟩
    obtain ⟨a, hmem, hprops⟩ := h3
    refine ⟨a, ?_, hprops⟩
    rw [check_flight_snd, if_neg (by simp [hog])]
    simp only [List.append_assoc, List.mem_append]
    exact Or.inr (Or.inr (Or.inl hmem))
  · intro prev f a hnone hmem
    rw [check_flight_snd] at hmem
    by_cases hog : truthyB f.on_ground
    · rw [if_pos hog] at hmem
      exact absurd hmem (List.not_mem_nil a)
    · rw [if_neg hog] at hmem
      simp only [List.append_assoc, List.mem_append] at hmem
      rcases hmem with h | h | h | h | h | h
      · rw [(mem_check_high_altitude h).1]
        decide
      · rw [(mem_check_excessive_altitude h).1]
        decide
      · rw [check_low_altitude_empty hnone] at h
        exact absurd h (List.not_mem_nil a)
      · rw [(mem_check_rapid_vertical h).1]
        decide
      · rw [(mem_check_excessive_speed h).1]
        decide
      · rw [(mem_check_six h).1]
        decide

/-! ### Lemmas for the flight-lookup refinement -/

theorem pure_eq_ok {α : Type} (a : α) : (pure a : Except PyErr α) = .ok a := rfl

theorem idx_ok {row : List JVal} {i : Nat} (h : i < row.length) :
    idx row i = .ok (row.getD i .null) := by
  simp [idx, List.getD_eq_getElem?_getD, List.getElem?_eq_getElem h]

theorem buildFlightOut_wf {row : List JVal} (h12 : 12 ≤ row.length) (h1 : pos1OK (row.get? 1))
    (ts : Int) (rg : String) :
    buildFlightOut row ts rg = .ok (pureBuild row ts rg) := by
  have l0 : 0 < row.length := by omega
  have l1 : 1 < row.length := by omega
  have l2 : 2 < row.length := by omega
  have l5 : 5 < row.length := by omega
  have l6 : 6 < row.length := by omega
  have l7 : 7 < row.length := by omega
  have l8 : 8 < row.length := by omega
  have l9 : 9 < row.length := by omega
  have l10 : 10 < row.length := by omega
  have l11 : 11 < row.length := by omega
  have hv : row.get? 1 = some (row.get ⟨1, l1⟩) := List.get?_eq_get l1
  have hgd : row.getD 1 .null = row.get ⟨1, l1⟩ := by
    simp [List.getD_eq_getElem?_getD, List.getElem?_eq_getElem l1, List.get_eq_getElem]
  rw [hv] at h1
  simp only [buildFlightOut, pureBuild, idx_ok l0, idx_ok l1, idx_ok l2, idx_ok l5, idx_ok l6,
    idx_ok l7, idx_ok l8, idx_ok l9, idx_ok l10, idx_ok l11, ok_bind, hgd]
  rcases hval : row.get ⟨1, l1⟩ with s | q' | b | _
  · by_cases hs : (JVal.str s).truthy <;>
      simp [hs, jstrip, jvalS, ok_bind, pure_eq_ok]
  · rw [hval] at h1
    exact h1.elim
  · rw [hval] at h1
    exact h1.elim
  · simp [JVal.truthy, jvalS, ok_bind, pure_eq_ok]

theorem rowMatchesCallsign_wf {row : List JVal} {q : String} (h1 : pos1OK (row.get? 1)) :
    rowMatchesCallsign row q = .ok (pureMatchCallsign row q) := by
  unfold rowMatchesCallsign pureMatchCallsign
  rcases hv : row.get? 1 with _ | v
  · rfl
  · rw [hv] at h1
    rcases v with s | q' | b | _
    · by_cases hs : s = "" <;> simp [hs, jstrip, JVal.truthy, ok_bind, pure_eq_ok]
    · exact h1.elim
    · exact h1.elim
    · simp [JVal.truthy, pure_eq_ok]

theorem searchRowsCallsign_wf {rows : List (List JVal)} {q : String} {ts : Int} {rg : String}
    (h : ∀ row ∈ rows, rowWF row) :
    searchRowsCallsign ts rg q rows =
      .ok ((rows.find? fun row => pureMatchCallsign row q).map fun row => pureBuild row ts rg) := by
  induction rows with
  | nil => rfl
  | cons row rows ih =>
    obtain ⟨h12, h1⟩ := h row (List.mem_cons_self row rows)
    have htl : ∀ r ∈ rows, rowWF r := fun r hr => h r (List.mem_cons_of_mem row hr)
    simp only [searchRowsCallsign]
    rw [rowMatchesCallsign_wf h1, ok_bind]
    by_cases hm : pureMatchCallsign row q
    · simp [hm, buildFlightOut_wf h12 h1, ok_bind, pure_eq_ok, List.find?_cons_of_pos]
    · simp only [hm, Bool.false_eq_true, if_false]
      rw [ih htl, List.find?_cons_of_neg]
      simp [hm]

theorem searchRowsIcao_wf {rows : List (List JVal)} {q : String} {ts : Int} {rg : String}
    (h : ∀ row ∈ rows, rowWF row) :
    searchRowsIcao ts rg q rows =
      .ok ((rows.find? fun row => rowMatchesIcao row q).map fun row => pureBuild row ts rg) := by
  induction rows with
  | nil => rfl
  | cons row rows ih =>
    obtain ⟨h12, h1⟩ := h row (List.mem_cons_self row rows)
    have htl : ∀ r ∈ rows, rowWF r := fun r hr => h r (List.mem_cons_of_mem row hr)
    simp only [searchRowsIcao]
    by_cases hm : rowMatchesIcao row q
    · simp [hm, buildFlightOut_wf h12 h1, ok_bind, pure_eq_ok, List.find?_cons_of_pos]
    · simp only [hm, Bool.false_eq_true, if_false]
      rw [ih htl, List.find?_cons_of_neg]
      simp [hm]

theorem find?_pair_callsign (s : Snapshot) (rows : List (List JVal)) (q : String) :
    ((rows.map fun row => (s, row)).find? fun c => pureMatchCallsign c.2 q) =
      (rows.find? fun row => pureMatchCallsign row q).map fun row => (s, row) := by
  induction rows with
  | nil => rfl
  | cons r rs ih => by_cases hp : pureMatchCallsign r q <;> simp [hp, ih]

theorem find?_pair_icao (s : Snapshot) (rows : List (List JVal)) (q : String) :
    ((rows.map fun row => (s, row)).find? fun c => rowMatchesIcao c.2 q) =
      (rows.find? fun row => rowMatchesIcao row q).map fun row => (s, row) := by
  induction rows with
  | nil => rfl
  | cons r rs ih => by_cases hp : rowMatchesIcao r q <;> simp [hp, ih]

theorem searchSnapsCallsign_wf {snaps : List Snapshot} {q : String}
    (h : ∀ s ∈ snaps, ∀ row ∈ snapRows s, rowWF row) :
    searchSnapsCallsign q snaps =
      .ok (((snaps.flatMap fun s => (snapRows s).map fun row => (s, row)).find?
          fun c => pureMatchCallsign c.2 q).map fun c => pureBuild c.2 c.1.timestamp c.1.region) := by
  induction snaps with
  | nil => rfl
  | cons s rest ih =>
    have hhd : ∀ row ∈ snapRows s, rowWF row := h s (List.mem_cons_self s rest)
    have htl : ∀ t ∈ rest, ∀ row ∈ snapRows t, rowWF row :=
      fun t ht => h t (List.mem_cons_of_mem s ht)
    simp only [searchSnapsCallsign]
    rw [searchRowsCallsign_wf hhd, ok_bind, List.flatMap_cons, List.find?_append,
      find?_pair_callsign]
    cases hf : (snapRows s).find? fun row => pureMatchCallsign row q with
    | some row0 => rfl
    | none => exact ih htl

theorem searchSnapsIcao_wf {snaps : List Snapshot} {q : String}
    (h : ∀ s ∈ snaps, ∀ row ∈ snapRows s, rowWF row) :
    searchSnapsIcao q snaps =
      .ok (((snaps.flatMap fun s => (snapRows s).map fun row => (s, row)).find?
          fun c => rowMatchesIcao c.2 q).map fun c => pureBuild c.2 c.1.timestamp c.1.region) := by
  induction snaps with
  | nil => rfl
  | cons s rest ih =>
    have hhd : ∀ row ∈ snapRows s, rowWF row := h s (List.mem_cons_self s rest)
    have htl : ∀ t ∈ rest, ∀ row ∈ snapRows t, rowWF row :=
      fun t ht => h t (List.mem_cons_of_mem s ht)
    simp only [searchSnapsIcao]
    rw [searchRowsIcao_wf hhd, ok_bind, List.flatMap_cons, List.find?_append,
      find?_pair_icao]
    cases hf : (snapRows s).find? fun row => rowMatchesIcao row q with
    | some row0 => rfl
    | none => exact ih htl

theorem get_flight_by_callsign_wf {store : List Snapshot} {q : String} (h : storeWF store) :
    get_flight_by_callsign store q =
      .ok (((candidateRows store).find? fun c => pureMatchCallsign c.2 q).map
        fun c => pureBuild c.2 c.1.timestamp c.1.region) := by
  have h10 : ∀ s ∈ store.take 10, ∀ row ∈ snapRows s, rowWF row :=
    fun s hs => h s (List.take_subset 10 store hs)
  unfold get_flight_by_callsign candidateRows
  exact searchSnapsCallsign_wf h10

theorem get_flight_by_icao24_wf {store : List Snapshot} {q : String} (h : storeWF store) :
    get_flight_by_icao24 store q =
      .ok (((candidateRows store).find? fun c => rowMatchesIcao c.2 q).map
        fun c => pureBuild c.2 c.1.timestamp c.1.region) := by
  have h10 : ∀ s ∈ store.take 10, ∀ row ∈ snapRows s, rowWF row :=
    fun s hs => h s (List.take_subset 10 store hs)
  unfold get_flight_by_icao24 candidateRows
  exact searchSnapsIcao_wf h10

/-! ### C2: what the lookup actually returns -/

/-- C2 counterexample: with a newer snapshot matching the query `"q"` only
by identifier and an older snapshot matching by callsign, the lookup
returns the older callsign match (icao24 `"aaa"`, region `"r2"`), not the
newer identifier match; and a callsign differing from the query only in
case is not found at all. -/
theorem C2_counterexample :
    (get_by_callsign [snapNewer, snapOlder] "q" =
      .ok ⟨true, some ⟨some "q", .str "aaa", .str "FR", .num 1, .num 2, .num 5000, .num 500,
        .num 90, .num 0, .bool false, 1, "r2"⟩, none⟩) ∧
    rowMatchesIcao [.str "q", .str "ZZZ", .str "US", .null, .null, .num 1, .num 2,
      .num 3000, .bool false, .num 400, .num 90, .num 0] "q" = true ∧
    get_by_callsign [snapUpperCase] "q" =
      .ok ⟨false, none, some ("Flight not found: " ++ "q")⟩ := by decide

/-- C2 amended: on any store whose persisted rows are well-formed (at least
12 fields, a string or null in the callsign position), the lookup never
raises and behaves as two sequential passes over the rows of the 10 most
recently written snapshots in descending recency order: it returns the
record of the first row whose stripped callsign equals the stripped query
(case-sensitively); only if no such row exists anywhere in the window does
an identifier pass run, returning the record of the first row whose
identifier equals the query exactly; otherwise a structured not-found
result.  In particular a callsign match in an older snapshot takes
precedence over an identifier-only match in a newer one. -/
theorem C2_two_pass (store : List Snapshot) (q : String) (h : storeWF store) :
    get_by_callsign store q =
      .ok (match spec_find_flight store q with
        | some fl => ⟨true, some fl, none⟩
        | none => ⟨false, none, some ("Flight not found: " ++ q)⟩) := by
  unfold get_by_callsign spec_find_flight
  rw [get_flight_by_callsign_wf h, ok_bind]
  cases hf : (candidateRows store).find? fun c => pureMatchCallsign c.2 q with
  | some c => simp [hf, pure_eq_ok]
  | none =>
    simp only [hf, Option.map_none']
    rw [get_flight_by_icao24_wf h, ok_bind]
    cases hf2 : (candidateRows store).find? fun c => rowMatchesIcao c.2 q with
    | some c => simp [hf2, pure_eq_ok]
    | none => simp [hf2, pure_eq_ok]

/-! ### C8: the active-alert window -/

/-- C8: `get_active_alerts` returns exactly the stored alerts whose
creation time is at least `now - max_age_hours`, ordered by creation time
descending; concretely, an alert created 25 hours ago is excluded at a
24-hour window and included at a 48-hour window. -/
theorem C8_active_alerts :
    (∀ (now maxAge : Int) (alerts : List StoredAlert),
      (get_active_alerts now maxAge alerts).Perm
          (alerts.filter fun a => decide (alert_cutoff now maxAge ≤ a.timestamp)) ∧
        List.Sorted alertDescTs (get_active_alerts now maxAge alerts)) ∧
    (∀ (now maxAge : Int) (alerts : List StoredAlert) (a : StoredAlert),
      a ∈ get_active_alerts now maxAge alerts ↔
        a ∈ alerts ∧ now - maxAge * 3600 ≤ a.timestamp) ∧
    alert25h ∉ get_active_alerts 0 24 [alert25h] ∧
    alert25h ∈ get_active_alerts 0 48 [alert25h] := by
  refine ⟨fun now maxAge alerts => ⟨?_, ?_⟩, fun now maxAge alerts a => ?_, by decide, by decide⟩
  · exact List.perm_insertionSort _ _
  · exact List.sorted_insertionSort alertDescTs _
  · unfold get_active_alerts
    rw [(List.perm_insertionSort alertDescTs _).mem_iff, List.mem_filter]
    simp [alert_cutoff]

/-! ### Rules 2 and 4 cannot fire together -/

/-- The guard of rule 2 (`altitude > 8000 ∧ velocity < 100`) and the guard
of rule 4 (`altitude < min_altitude_high_speed ∧ velocity >
high_speed_threshold`) are mutually exclusive: no altitude exceeds 8000
while staying below 3000 (and no velocity is both below 100 and above
600), so the rule-independence claim for this particular pair holds only
vacuously. -/
theorem rule2_rule4_never_both (alt vel : ℚ)
    (h : alt > 8000 ∧ vel < min_velocity_kmh ∧ alt < min_altitude_high_speed ∧
      vel > high_speed_threshold) : False := by
  obtain ⟨h1, -, h3, -⟩ := h
  rw [min_altitude_high_speed] at h3
  linarith

/-- Witness for C2 on the two-snapshot store, with well-formedness checked
by evaluation. -/
theorem C2_witness :
    get_by_callsign [snapNewer, snapOlder] "q" =
      .ok (match spec_find_flight [snapNewer, snapOlder] "q" with
        | some fl => ⟨true, some fl, none⟩
        | none => ⟨false, none, some ("Flight not found: " ++ "q")⟩) :=
  C2_two_pass [snapNewer, snapOlder] "q" (by decide)

/-- Witness for C3: the spec's fast-and-low scenario flight (altitude 2000,
velocity 700) yields the anomaly, and a flight with no altitude yields no
`low_altitude_high_speed` anomaly. -/
theorem C3_witness :
    (∃ a ∈ (check_flight []
        ⟨some "ghi789", some "FAST123", none, none, none, some 2000, some false, some 700,
          none, none⟩).2,
      a.anomaly_type = "low_altitude_high_speed" ∧ a.severity = "high" ∧
        a.flight = ⟨some "ghi789", some "FAST123", none, none, none, some 2000, some false,
          some 700, none, none⟩) ∧
    (∀ a ∈ (check_flight [] excessAltFlight).2, a.anomaly_type ≠ "low_altitude_high_speed") :=
  ⟨C3_low_altitude_rule.1 [] _ 2000 700 (by decide) rfl (by decide) (by decide) rfl (by decide),
    fun a ha => C3_low_altitude_rule.2 [] excessAltFlight a (Or.inr rfl) ha⟩
